import Mathlib

/-!
A formal model of the navigation and viewport engine of the zathura-hacks
document viewer (src/shortcuts.c, src/links.c), together with theorems about
its scroll, bisection, window-adjustment, link-construction, search-advance,
page-navigation and zoom operations.

Modelling conventions:
* C `double`/`float` values are modelled as exact rationals (`ℚ`); the spec
  states that all arithmetic of this layer is total over real-valued inputs.
* C `unsigned int` page numbers are `ℕ`; C `int` values are `ℤ`.  Where the
  32-bit width of the machine integers matters (sc_navigate mixes `int` and
  `unsigned int` arithmetic), the conversions are modelled explicitly with
  `% 4294967296`.
* C `%` on `int` is truncating remainder, modelled by `Int.tmod`; C `/` on
  `int` is truncating division, modelled by `Int.tdiv`.  On `unsigned int`
  they are plain `Nat` operations.
* Functions of the repository that are not part of the excerpted core
  (jumplist operations, `page_set`, `zathura_get_document_size`) are
  modelled from the spec; each such definition carries a doc comment saying
  so.
-/

/-! ## Scroll engine (sc_scroll, src/shortcuts.c lines 562-712) -/

/-- The scroll directions accepted by `sc_scroll` (`argument->n`); `other`
stands for any unrecognized value, which the C `switch` default maps to
`new_value = value`. -/
inductive ScrollDir
  | up | down | left | right
  | full_up | full_down | full_left | full_right
  | half_up | half_down | half_left | half_right
  | top | bottom | other
deriving DecidableEq

/-- C cast of a `double` to `int`: truncation toward zero. -/
def dtoi (q : ℚ) : ℤ := Int.tdiv q.num q.den

/-- The inputs of one `sc_scroll` invocation: the GTK adjustment state
(`value`, `page_size` = viewport extent, `upper`), the settings read inside
the function, and the geometry of the current page along the scrolled axis
(`page_offset_axis` = `offset.x`/`offset.y` from `page_calculate_offset`,
`page_dim_scaled` = page width/height times scale), which sc_scroll obtains
from external geometry helpers. -/
structure ScrollParams where
  value : ℚ
  view_size : ℚ
  upper : ℚ
  scroll_step : ℚ
  scroll_hstep : ℚ
  scroll_full_overlap : ℚ
  scroll_page_aware : Bool
  scroll_wrap : Bool
  padding : ℤ
  page_offset_axis : ℚ
  page_dim_scaled : ℚ
deriving DecidableEq

/-- The `switch(argument->n)` computing the raw `new_value` (lines 611-648).
`mx` is `max = upper - view_size`, `t` the (already defaulted) count. -/
def sc_scroll_base (dir : ScrollDir) (t : ℕ) (value view_size mx : ℚ)
    (step hstep overlap : ℚ) (padding : ℤ) : ℚ :=
  match dir with
  | .full_up => value - (1 - overlap) * view_size - (padding : ℚ)
  | .full_left => value - (1 - overlap) * view_size - (padding : ℚ)
  | .full_down => value + (1 - overlap) * view_size + (padding : ℚ)
  | .full_right => value + (1 - overlap) * view_size + (padding : ℚ)
  | .half_up => value - (view_size + (padding : ℚ)) / 2
  | .half_left => value - (view_size + (padding : ℚ)) / 2
  | .half_down => value + (view_size + (padding : ℚ)) / 2
  | .half_right => value + (view_size + (padding : ℚ)) / 2
  | .left => value - hstep * (t : ℚ)
  | .up => value - step * (t : ℚ)
  | .right => value + hstep * (t : ℚ)
  | .down => value + step * (t : ℚ)
  | .top => 0
  | .bottom => mx
  | .other => value

/-- The wrap-around step (lines 650-655): with `scroll-wrap` enabled a value
below 0 becomes `max` and a value above `max` becomes 0. -/
def sc_scroll_wrap (wrap : Bool) (mx v : ℚ) : ℚ :=
  if wrap then (if v < 0 then mx else if v > mx then 0 else v) else v

/-- Whether `dir` is one of the forward full/half directions of the
page-aware branch (line 682). -/
def scroll_fwd_set (dir : ScrollDir) : Bool :=
  dir = .full_down ∨ dir = .half_down ∨ dir = .full_right ∨ dir = .half_right

/-- Whether `dir` is one of the backward full/half directions of the
page-aware branch (line 694). -/
def scroll_bwd_set (dir : ScrollDir) : Bool :=
  dir = .full_up ∨ dir = .half_up ∨ dir = .full_left ∨ dir = .half_left

/-- The page-aware snapping step (lines 657-707).  `v2` is the `new_value`
after wrap handling; `off_axis` and `page_dim` are the offset of the current page
and scaled extent along the scrolled axis.  `page_offset` is an `int` in the
source, hence the truncating cast and truncating division by 2. -/
def sc_scroll_page_aware (dir : ScrollDir) (value view_size v2 : ℚ)
    (off_axis page_dim : ℚ) (padding : ℤ) : ℚ :=
  let po : ℤ := dtoi off_axis - Int.tdiv padding 2
  let ps : ℚ := page_dim + (padding : ℚ)
  if scroll_fwd_set dir then
    if (po : ℚ) > value ∧ (po : ℚ) < value + view_size then (po : ℚ)
    else if (po : ℚ) ≤ value ∧ (po : ℚ) + ps < value + view_size then (po : ℚ) + ps + 1
    else if (po : ℚ) ≤ value ∧ (po : ℚ) + ps < v2 + view_size then (po : ℚ) + ps - view_size + 1
    else v2
  else if scroll_bwd_set dir then
    if (po : ℚ) + 1 ≥ value ∧ (po : ℚ) < value + view_size then (po : ℚ) - view_size
    else if (po : ℚ) ≤ value ∧ (po : ℚ) + ps + 1 < value + view_size then (po : ℚ) + ps - view_size
    else if (po : ℚ) ≤ value ∧ (po : ℚ) > v2 then (po : ℚ)
    else v2
  else v2

/-- `sc_scroll` (lines 562-712): the scalar passed to
`zathura_adjustment_set_value`.  The count `t` defaults to 1, `scroll-hstep`
falls back to `scroll-step` when negative, then base delta, wrap handling
and page-aware snapping are applied in this order. -/
def sc_scroll (dir : ScrollDir) (t : ℕ) (p : ScrollParams) : ℚ :=
  let t' := if t = 0 then 1 else t
  let mx := p.upper - p.view_size
  let hstep := if p.scroll_hstep < 0 then p.scroll_step else p.scroll_hstep
  let v1 := sc_scroll_base dir t' p.value p.view_size mx p.scroll_step hstep
    p.scroll_full_overlap p.padding
  let v2 := sc_scroll_wrap p.scroll_wrap mx v1
  if p.scroll_page_aware then
    sc_scroll_page_aware dir p.value p.view_size v2 p.page_offset_axis
      p.page_dim_scaled p.padding
  else v2

/-- Concrete parameters for the end-to-end scroll example of the spec:
viewport extent 500, upper bound 1010, overlap 0, padding 1, value 0, with
all optional behaviours (wrap, page-aware) at their default `false`. -/
def scrollExample : ScrollParams :=
  { value := 0, view_size := 500, upper := 1010, scroll_step := 40,
    scroll_hstep := -1, scroll_full_overlap := 0, scroll_page_aware := false,
    scroll_wrap := false, padding := 1, page_offset_axis := 0,
    page_dim_scaled := 0 }

/-- Concrete parameters showing page-aware snapping escaping `[0, max]`:
two pages of heights 600 and 400 (upper = 1000), viewport 500, at offset 0,
with wrap and page-aware snapping both enabled. -/
def scrollEscape : ScrollParams :=
  { value := 0, view_size := 500, upper := 1000, scroll_step := 40,
    scroll_hstep := -1, scroll_full_overlap := 0, scroll_page_aware := true,
    scroll_wrap := true, padding := 0, page_offset_axis := 0,
    page_dim_scaled := 600 }

/-- Concrete parameters for the wrap-bounds witness: wrap enabled,
page-aware disabled. -/
def scrollWrapOnly : ScrollParams :=
  { value := 0, view_size := 500, upper := 1000, scroll_step := 40,
    scroll_hstep := -1, scroll_full_overlap := 0, scroll_page_aware := false,
    scroll_wrap := true, padding := 1, page_offset_axis := 0,
    page_dim_scaled := 0 }

/-! ## Zoom (sc_zoom, src/shortcuts.c lines 1313-1367) -/

/-- The zoom actions (`argument->n`); `other` is any unrecognized value,
which the final `else` maps to scale 1.0. -/
inductive ZoomArg
  | zoom_in | zoom_out | zoom_specific | other
deriving DecidableEq

/-- `sc_zoom`: returns the document scale after the operation, including the
final clamping against `zoom-min`/`zoom-max` (both percentages). -/
def sc_zoom (arg : ZoomArg) (t : ℕ) (old_zoom : ℚ)
    (zoom_step_value zoom_min_int zoom_max_int : ℤ) : ℚ :=
  let nt : ℤ := if t = 0 then 1 else (t : ℤ)
  let zoom_step : ℚ := (zoom_step_value : ℚ) / 100 * (nt : ℚ)
  let z1 : ℚ :=
    match arg with
    | .zoom_in => old_zoom + zoom_step
    | .zoom_out => old_zoom - zoom_step
    | .zoom_specific => if t = 0 then 1 else (t : ℚ) / 100
    | .other => 1
  let zoom_min : ℚ := (zoom_min_int : ℚ) * (1 / 100)
  let zoom_max : ℚ := (zoom_max_int : ℚ) * (1 / 100)
  if z1 < zoom_min then zoom_min else if z1 > zoom_max then zoom_max else z1

/-! ## Link construction (zathura_link_new, src/links.c lines 24-59) -/

/-- The link types of `zathura_link_type_t`; `invalid` stands for
`ZATHURA_LINK_INVALID` and any other unrecognized enum value, which the C
`switch` default rejects. -/
inductive LinkType
  | link_none | goto_dest | goto_remote | uri | launch | named | invalid
deriving DecidableEq

/-- A link position rectangle (`zathura_rectangle_t`). -/
structure LinkRect where
  x1 : ℚ
  y1 : ℚ
  x2 : ℚ
  y2 : ℚ
deriving DecidableEq

/-- The part of `zathura_link_target_t` that `zathura_link_new` inspects:
the `value` string, `none` modelling a NULL pointer.  The remaining numeric
payload fields are copied wholesale and irrelevant to construction. -/
structure LinkTarget where
  value : Option String
deriving DecidableEq

/-- A constructed link (`zathura_link_s`). -/
structure ZathuraLink where
  type : LinkType
  position : LinkRect
  target : LinkTarget
deriving DecidableEq

/-- `zathura_link_new`: `NONE`/`GOTO_DEST` always succeed (copying the value
if present); `GOTO_REMOTE`/`URI`/`LAUNCH`/`NAMED` fail exactly when the value
is NULL; any other type fails. -/
def zathura_link_new (ty : LinkType) (pos : LinkRect) (tgt : LinkTarget) :
    Option ZathuraLink :=
  match ty with
  | .link_none => some ⟨ty, pos, tgt⟩
  | .goto_dest => some ⟨ty, pos, tgt⟩
  | .goto_remote | .uri | .launch | .named =>
    match tgt.value with
    | none => none
    | some _ => some ⟨ty, pos, tgt⟩
  | .invalid => none

/-- The empty string, used as a non-NULL value carrying no characters. -/
def emptyString : String := String.mk []

/-- A zero rectangle for concrete link-construction examples. -/
def rect0 : LinkRect := ⟨0, 0, 0, 0⟩

/-! ## Page navigation (sc_navigate, src/shortcuts.c lines 422-472) -/

/-- The navigation directions (`argument->n`): NEXT and PREVIOUS. -/
inductive NavDir
  | next | previous
deriving DecidableEq

/-- Conversion of a C `int` value to `unsigned int` (reduction mod 2^32). -/
def u32ofInt (x : ℤ) : ℕ := (x % 4294967296).toNat

/-- Conversion of a C `unsigned int` computation to a stored `int` value
(wraparound of the two-complement representation, as on the targeted platforms). -/
def i32ofNat (x : ℕ) : ℤ :=
  if x % 4294967296 < 2147483648 then ((x % 4294967296 : ℕ) : ℤ)
  else ((x % 4294967296 : ℕ) : ℤ) - 4294967296

/-- Modelled from the spec: `page_set` (not under src/): requests outside
`[0, numberOfPages)` are rejected with no page change
(`getPage(index) -> pageHandle|none`, and bounds violations are no-ops). -/
def page_set_nav (p n page_id : ℕ) : ℕ :=
  if page_id < n then page_id else p

/-- `sc_navigate`: current page `p`, `number_of_pages` `n`, count `t`
(defaulted to `offset`, the advance step, when 0).  `t` is `unsigned int`
while `new_page` and `number_of_pages` are `int`, so the C usual arithmetic
conversions perform the additions and subtractions in `unsigned int`
(mod 2^32) before the result is stored back into the `int` `new_page`;
`page_set` finally receives `new_page` converted back to `unsigned int`. -/
def sc_navigate (dir : NavDir) (t : ℕ) (p n offset : ℕ) (wrap : Bool) : ℕ :=
  let tt := if t = 0 then offset else t
  let np : ℤ :=
    match dir with
    | .next =>
      if wrap then i32ofNat ((p + tt) % 4294967296 % n)
      else i32ofNat (p + tt)
    | .previous =>
      if wrap then i32ofNat (u32ofInt ((p : ℤ) + (n : ℤ) - (tt : ℤ)) % n)
      else i32ofNat (u32ofInt ((p : ℤ) - (tt : ℤ)))
  if (np < 0 ∨ (n : ℤ) ≤ np) ∧ wrap = false then p
  else page_set_nav p n (u32ofInt np)

/-! ## Search advance (sc_search, src/shortcuts.c lines 883-976) -/

/-- Search directions: the shortcut argument (FORWARD/BACKWARD) and the
stored `search_direction` of the session. -/
inductive SearchDir
  | forward | backward
deriving DecidableEq

/-- Per-page search state read through the page widget: the pair
`(search-current, search-length)`; `search-current = -1` means no active
result on that page. -/
def get_page_search (pages : List (ℤ × ℤ)) (i : ℤ) : ℤ × ℤ :=
  pages.getD i.toNat (-1, 0)

/-- Setting the `search-current` property of a page, keeping its result count. -/
def set_page_current (pages : List (ℤ × ℤ)) (i c : ℤ) : List (ℤ × ℤ) :=
  pages.set i.toNat (c, (get_page_search pages i).2)

/-- The effective page-scan step of `sc_search` (lines 896-898): +1 for
FORWARD, -1 for BACKWARD, negated when the last search direction of the session
was BACKWARD. -/
def sc_search_diff (arg sdir : SearchDir) : ℤ :=
  let d : ℤ := if arg = .forward then 1 else -1
  if sdir = .backward then -d else d

/-- The inner cross-page scan loop of `sc_search` (lines 932-943).  The C
loop guard `page_id < num_pages` is invariant across iterations (only
`npage_id` is incremented), so the loop exits only through its `break`; it
is modelled with explicit fuel.  Each iteration sets the current page of the
document to the scanned index before testing the result count there.  Returns
the final current page and the found `(page index, result index)` target. -/
def sc_search_inner (pages : List (ℤ × ℤ)) (n cur diff page_id : ℤ) :
    ℕ → ℤ → ℤ → ℤ × Option (ℤ × ℤ)
  | 0, _, doc => (doc, none)
  | fuel + 1, npage_id, _ =>
    let ntmp := cur + diff * (page_id + npage_id)
    let idx := (ntmp + 2 * n).tmod n
    let len := (get_page_search pages idx).2
    if len ≠ 0 then (idx, some (idx, if diff = 1 then 0 else len - 1))
    else sc_search_inner pages n cur diff page_id fuel (npage_id + 1) idx

/-- Result of the outer scan of `sc_search`: updated per-page states, the
current page of the document, and the target result, if any. -/
structure SearchOut where
  pages : List (ℤ × ℤ)
  doc_cur : ℤ
  target : Option (ℤ × ℤ)
deriving DecidableEq

/-- The outer scan loop of `sc_search` (lines 903-949): starting from the
current page, scan cyclically for a page with an active result cursor; stay
on the page when the neighbouring result index is in range, otherwise clear
the cursor and delegate to the inner cross-page scan (called with fuel
`num_pages`, which always suffices for the break to be reached).  The
jumplist save/add bookkeeping of the source does not affect pages, current
page or target and is not modelled. -/
def sc_search_outer (n cur diff : ℤ) :
    ℕ → ℤ → List (ℤ × ℤ) → ℤ → SearchOut
  | 0, _, pages, doc => ⟨pages, doc, none⟩
  | fuel + 1, page_id, pages, doc =>
    let tmp := cur + diff * page_id
    let idx := (tmp + n).tmod n
    let pg := get_page_search pages idx
    if pg.2 = 0 ∨ pg.1 = -1 then
      sc_search_outer n cur diff fuel (page_id + 1) pages doc
    else if diff = 1 ∧ pg.1 < pg.2 - 1 then ⟨pages, doc, some (idx, pg.1 + 1)⟩
    else if diff = -1 ∧ 0 < pg.1 then ⟨pages, doc, some (idx, pg.1 - 1)⟩
    else
      let pages1 := set_page_current pages idx (-1)
      let r := sc_search_inner pages1 n cur diff page_id n.toNat 1 doc
      ⟨pages1, r.1, r.2⟩

/-- The document/search state consumed by `sc_search`. -/
structure SearchSt where
  num_pages : ℤ
  cur_page : ℤ
  pages : List (ℤ × ℤ)
deriving DecidableEq

/-- `sc_search` (lines 883-976): computes the effective step, runs the outer
scan, and activates the target result (`search-current := target_idx`).
Returns the updated state and the target `(page index, result index)`. -/
def sc_search (arg sdir : SearchDir) (st : SearchSt) : SearchSt × Option (ℤ × ℤ) :=
  let diff := sc_search_diff arg sdir
  let o := sc_search_outer st.num_pages st.cur_page diff st.num_pages.toNat 0
    st.pages st.cur_page
  match o.target with
  | some pt => (⟨st.num_pages, o.doc_cur, set_page_current o.pages pt.1 pt.2⟩, some pt)
  | none => (⟨st.num_pages, o.doc_cur, o.pages⟩, none)

/-- The 3-page search scenario of the spec, with result counts `[0, 2, 0]`,
the last result (index 1) of page 1 active, current page 0. -/
def searchScenario : SearchSt := ⟨3, 0, [(-1, 0), (1, 2), (-1, 0)]⟩

/-- The same scenario but with the first result (index 0) of page 1 active,
as the claim words it. -/
def searchScenarioFirst : SearchSt := ⟨3, 0, [(-1, 0), (0, 2), (-1, 0)]⟩

/-! ## Jumplist and bisection (sc_bisect, src/shortcuts.c lines 750-880) -/

/-- A recorded viewport position. -/
structure JumpEntry where
  page : ℕ
  x : ℚ
  y : ℚ
deriving DecidableEq

/-- Modelled from the spec: the jumplist container (zathura.c, not under
src/): an ordered sequence of entries, a cursor index, and a maximum
capacity. -/
structure Jumplist where
  entries : List JumpEntry
  cursor : ℕ
  max_size : ℕ
deriving DecidableEq

/-- Modelled from the spec: `zathura_jumplist_save`: discard entries after
the cursor, then overwrite the entry at the cursor (or append if empty),
without moving the cursor. -/
def Jumplist.save (jl : Jumplist) (e : JumpEntry) : Jumplist :=
  if jl.entries.isEmpty then { jl with entries := [e] }
  else { jl with entries := (jl.entries.take (jl.cursor + 1)).set jl.cursor e }

/-- Modelled from the spec: `zathura_jumplist_add`: append a new entry after
the cursor (discarding entries after it), move the cursor to the new tail,
and drop the oldest entry when the capacity is exceeded. -/
def Jumplist.add (jl : Jumplist) (e : JumpEntry) : Jumplist :=
  let l := jl.entries.take (jl.cursor + 1) ++ [e]
  if jl.max_size < l.length then
    { jl with entries := l.drop 1, cursor := l.length - 2 }
  else { jl with entries := l, cursor := l.length - 1 }

/-- Modelled from the spec: `zathura_jumplist_backward`: move the cursor one
step back, no-op at the start. -/
def Jumplist.backward (jl : Jumplist) : Jumplist :=
  if 0 < jl.cursor then { jl with cursor := jl.cursor - 1 } else jl

/-- Modelled from the spec: `zathura_jumplist_forward`: move the cursor one
step forward, no-op at the end. -/
def Jumplist.forward (jl : Jumplist) : Jumplist :=
  if jl.cursor + 1 < jl.entries.length then { jl with cursor := jl.cursor + 1 }
  else jl

/-- Modelled from the spec: `zathura_jumplist_has_previous`: whether
`backward()` would move the cursor. -/
def Jumplist.has_previous (jl : Jumplist) : Bool := jl.cursor != 0

/-- Modelled from the spec: `zathura_jumplist_current`: the entry at the
cursor, if any. -/
def Jumplist.current (jl : Jumplist) : Option JumpEntry :=
  jl.entries.get? jl.cursor

/-- The navigation state used by `sc_bisect`: page count, current page,
current viewport position (recorded into jump entries), jumplist. -/
structure ZState where
  num_pages : ℕ
  cur_page : ℕ
  pos_x : ℚ
  pos_y : ℚ
  jl : Jumplist
deriving DecidableEq

/-- The jump entry recording the current viewport position of a state. -/
def zentry (s : ZState) : JumpEntry := ⟨s.cur_page, s.pos_x, s.pos_y⟩

/-- Modelled from the spec: `page_set` on the bisection state: set the
current page if the index is valid, otherwise do nothing. -/
def page_set (s : ZState) (page_id : ℕ) : ZState :=
  if page_id < s.num_pages then { s with cur_page := page_id } else s

/-- Bisection directions (`argument->n`): FORWARD and BACKWARD. -/
inductive BisectDir
  | forward | backward
deriving DecidableEq

/-- The direction chosen by `sc_bisect` (lines 776-792): with an explicit
target page `t` in `(0, number_of_pages]`, BACKWARD when `t-1 > cur_page`
and FORWARD otherwise; without one, the shortcut argument. -/
def sc_bisect_direction (cur0 t n : ℕ) (arg : BisectDir) : BisectDir :=
  if 0 < t ∧ t ≤ n then (if cur0 < t - 1 then .backward else .forward) else arg

/-- The reading of the direction rule in the claim, following the words of
the spec:
Backward if the explicit target page precedes the original current page,
else Forward. -/
def spec_bisect_direction (cur0 t : ℕ) : BisectDir :=
  if t - 1 < cur0 then .backward else .forward

/-- The first phase of `sc_bisect` (lines 772-786): save the current
position, and with an explicit target page `t` in `(0, number_of_pages]`
jump to `t-1` and record the new position via `add`. -/
def sc_bisect_prepare (s : ZState) (t : ℕ) : ZState :=
  let s1 := { s with jl := s.jl.save (zentry s) }
  if 0 < t ∧ t ≤ s.num_pages then
    let s2 := page_set s1 (t - 1)
    { s2 with jl := s2.jl.add (zentry s2) }
  else s1

/-- The pages of the previous and second-previous jump entries, obtained as
in lines 796-816 by walking the cursor backward and restoring it with
`forward`. -/
structure BisectPeek where
  have_prev : Bool
  prev_page : ℕ
  have_prev2 : Bool
  prev2_page : ℕ
  jl : Jumplist
deriving DecidableEq

/-- The cursor-walking peek of `sc_bisect` (lines 796-816). -/
def jumplist_peek (jl : Jumplist) : BisectPeek :=
  if jl.has_previous then
    let jl1 := jl.backward
    let pr := jl1.current
    let hp := pr.isSome
    let pp := (pr.map JumpEntry.page).getD 0
    if jl1.has_previous then
      let jl2 := jl1.backward
      let pr2 := jl2.current
      ⟨hp, pp, pr2.isSome, (pr2.map JumpEntry.page).getD 0, jl2.forward.forward⟩
    else ⟨hp, pp, false, 0, jl1.forward⟩
  else ⟨false, 0, false, 0, jl⟩

/-- The bisection `switch` of `sc_bisect` (lines 822-873). -/
def sc_bisect_switch (s : ZState) (dir : BisectDir) (cur n : ℕ)
    (pk : BisectPeek) : ZState :=
  match dir with
  | .forward =>
    if pk.have_prev ∧ cur ≤ pk.prev_page then
      if cur < pk.prev_page then
        let s1 := page_set s ((cur + pk.prev_page) / 2)
        { s1 with jl := s1.jl.add (zentry s1) }
      else s
    else if pk.have_prev2 ∧ cur ≤ pk.prev2_page then
      if cur < pk.prev2_page then
        let sa := { s with jl := ((s.jl.backward).save (zentry s)).forward }
        let sb := page_set sa ((cur + pk.prev2_page) / 2)
        { sb with jl := sb.jl.save (zentry sb) }
      else s
    else
      let s1 := page_set s ((cur + n - 1) / 2)
      { s1 with jl := s1.jl.add (zentry s1) }
  | .backward =>
    if pk.have_prev ∧ pk.prev_page ≤ cur then
      if pk.prev_page < cur then
        let s1 := page_set s ((cur + pk.prev_page) / 2)
        { s1 with jl := s1.jl.add (zentry s1) }
      else s
    else if pk.have_prev2 ∧ pk.prev2_page ≤ cur then
      if pk.prev2_page < cur then
        let sa := { s with jl := ((s.jl.backward).save (zentry s)).forward }
        let sb := page_set sa ((cur + pk.prev2_page) / 2)
        { sb with jl := sb.jl.save (zentry sb) }
      else s
    else
      let s1 := page_set s (cur / 2)
      { s1 with jl := s1.jl.add (zentry s1) }

/-- `sc_bisect` (lines 750-880): save, optional explicit jump, direction
choice, cursor peek, then the bisection switch.  The final horizontal
re-adjustment has no effect on this state. -/
def sc_bisect (s : ZState) (arg : BisectDir) (t : ℕ) : ZState :=
  let cur0 := s.cur_page
  let n := s.num_pages
  let s2 := sc_bisect_prepare s t
  let dir := sc_bisect_direction cur0 t n arg
  let cur := s2.cur_page
  let pk := jumplist_peek s2.jl
  sc_bisect_switch { s2 with jl := pk.jl } dir cur n pk

/-- A concrete 10-page state with an empty jumplist, current page 4. -/
def bisectExample : ZState := ⟨10, 4, 0, 0, ⟨[], 0, 20⟩⟩

/-! ## Window adjustment (sc_adjust_window, src/shortcuts.c lines 87-189) -/

/-- The adjust modes (`zathura_adjust_mode_t`). -/
inductive AdjustMode
  | noadjust | bestfit | fitwidth | inputbar
deriving DecidableEq

/-- The inputs of one `sc_adjust_window` invocation: the viewport size after
the scrollbar-spacing and inputbar corrections, the layout settings, the
unscaled (rotated) cell size, and the requisition width of the vertical
scrollbar, when such a widget exists.  Padding is taken nonnegative, as in any
sane configuration. -/
structure AdjustParams where
  width : ℕ
  height : ℕ
  pages_per_row : ℕ
  first_page_column : ℕ
  padding : ℕ
  cell_height : ℕ
  cell_width : ℕ
  num_pages : ℕ
  show_scrollbars : Bool
  vscrollbar_req_width : Option ℕ
deriving DecidableEq

/-- Modelled from the spec: `zathura_get_document_size` (utils.c, not under
src/): the canvas size of the grid layout — `pagesPerRow` columns, rows of
height `cell_height`, `ceil((numPages + firstPageColumn - 1)/pagesPerRow)`
rows, with `padding` between columns and rows.  Returns (height, width). -/
def zathura_get_document_size (np ppr fpc ch cw padding : ℕ) : ℕ × ℕ :=
  let nrow := (np + fpc - 1 + ppr - 1) / ppr
  (nrow * ch + (nrow - 1) * padding, ppr * cw + (ppr - 1) * padding)

/-- The document size for given adjustment parameters. -/
def adjust_doc_size (p : AdjustParams) : ℕ × ℕ :=
  zathura_get_document_size p.num_pages p.pages_per_row p.first_page_column
    p.cell_height p.cell_width p.padding

/-- The width-fitting scale formula of lines 146-147 and 167-168, at
viewport width `w`. -/
def adjust_width_scale (p : AdjustParams) (w : ℕ) : ℚ :=
  ((w : ℚ) - (((p.pages_per_row - 1) * p.padding : ℕ) : ℚ)) /
    (((p.pages_per_row * p.cell_width : ℕ)) : ℚ)

/-- The scrollbar width subtracted by the single correction pass of lines
150-173, when it applies: scrollbars shown, the (unscaled) document taller
than the viewport, a vertical scrollbar widget present, and its requisition
width strictly between 0 and the viewport width. -/
def adjust_correction (p : AdjustParams) : Option ℕ :=
  if p.show_scrollbars = true ∧ p.height < (adjust_doc_size p).1 then
    match p.vscrollbar_req_width with
    | some rw => if 0 < rw ∧ rw < p.width then some rw else none
    | none => none
  else none

/-- `sc_adjust_window` (lines 87-189): the document scale after the call,
`none` when the mode is NONE (nothing is recomputed).  For WIDTH, and for
BESTFIT when `cell_height / document_width < height / width`, the width
formula applies with at most one scrollbar correction; otherwise BESTFIT
uses `height / cell_height`; an unrecognized mode leaves the scale at the
1.0 set at the start of the computation. -/
def sc_adjust_window (mode : AdjustMode) (p : AdjustParams) : Option ℚ :=
  match mode with
  | .noadjust => none
  | m =>
    let ds := adjust_doc_size p
    let page_aspect : ℚ := (p.cell_height : ℚ) / (ds.2 : ℚ)
    let window_aspect : ℚ := (p.height : ℚ) / (p.width : ℚ)
    if m = .fitwidth ∨ (m = .bestfit ∧ page_aspect < window_aspect) then
      match adjust_correction p with
      | some rw => some (adjust_width_scale p (p.width - rw))
      | none => some (adjust_width_scale p p.width)
    else if m = .bestfit then some ((p.height : ℚ) / (p.cell_height : ℚ))
    else some 1

/-- A concrete two-page, two-column layout: 1000x800 viewport, 100x100
cells, no padding, no scrollbars. -/
def adjustExample : AdjustParams :=
  { width := 1000, height := 800, pages_per_row := 2, first_page_column := 1,
    padding := 0, cell_height := 100, cell_width := 100, num_pages := 2,
    show_scrollbars := false, vscrollbar_req_width := none }

/-! ## Helper lemmas -/

@[simp]
theorem Jumplist.save_max_size (jl : Jumplist) (e : JumpEntry) :
    (jl.save e).max_size = jl.max_size := by
  unfold Jumplist.save; split <;> rfl

@[simp]
theorem Jumplist.add_max_size (jl : Jumplist) (e : JumpEntry) :
    (jl.add e).max_size = jl.max_size := by
  unfold Jumplist.add; dsimp only; split <;> rfl

@[simp]
theorem Jumplist.backward_max_size (jl : Jumplist) :
    jl.backward.max_size = jl.max_size := by
  unfold Jumplist.backward; split <;> rfl

@[simp]
theorem Jumplist.forward_max_size (jl : Jumplist) :
    jl.forward.max_size = jl.max_size := by
  unfold Jumplist.forward; split <;> rfl

@[simp]
theorem jumplist_peek_max_size (jl : Jumplist) :
    (jumplist_peek jl).jl.max_size = jl.max_size := by
  unfold jumplist_peek
  dsimp only
  split_ifs <;> simp

theorem Jumplist.add_current (jl : Jumplist) (e : JumpEntry)
    (h : 0 < jl.max_size) : (jl.add e).current = some e := by
  unfold Jumplist.add Jumplist.current
  dsimp only
  by_cases hc : jl.max_size < (jl.entries.take (jl.cursor + 1) ++ [e]).length
  · rw [if_pos hc]
    dsimp only
    have hlen : (jl.entries.take (jl.cursor + 1) ++ [e]).length
        = (jl.entries.take (jl.cursor + 1)).length + 1 := by simp
    have h1 : 1 ≤ (jl.entries.take (jl.cursor + 1)).length := by omega
    rw [List.drop_append_of_le_length h1]
    have h2 : (jl.entries.take (jl.cursor + 1) ++ [e]).length - 2
        = ((jl.entries.take (jl.cursor + 1)).drop 1).length := by
      simp only [List.length_append, List.length_drop, List.length_singleton]
      omega
    rw [h2, List.get?_concat_length]
  · rw [if_neg hc]
    dsimp only
    have h2 : (jl.entries.take (jl.cursor + 1) ++ [e]).length - 1
        = (jl.entries.take (jl.cursor + 1)).length := by simp
    rw [h2, List.get?_concat_length]

@[simp]
theorem page_set_num_pages (s : ZState) (k : ℕ) :
    (page_set s k).num_pages = s.num_pages := by
  unfold page_set; split <;> rfl

@[simp]
theorem page_set_pos_x (s : ZState) (k : ℕ) :
    (page_set s k).pos_x = s.pos_x := by
  unfold page_set; split <;> rfl

@[simp]
theorem page_set_pos_y (s : ZState) (k : ℕ) :
    (page_set s k).pos_y = s.pos_y := by
  unfold page_set; split <;> rfl

@[simp]
theorem page_set_jl (s : ZState) (k : ℕ) : (page_set s k).jl = s.jl := by
  unfold page_set; split <;> rfl

theorem page_set_cur_page (s : ZState) (k : ℕ) (h : k < s.num_pages) :
    (page_set s k).cur_page = k := by
  unfold page_set; rw [if_pos h]

theorem zentry_page_set (s : ZState) (k : ℕ) (h : k < s.num_pages) :
    zentry (page_set s k) = ⟨k, s.pos_x, s.pos_y⟩ := by
  unfold zentry
  rw [page_set_cur_page s k h, page_set_pos_x, page_set_pos_y]

@[simp]
theorem sc_bisect_prepare_num_pages (s : ZState) (t : ℕ) :
    (sc_bisect_prepare s t).num_pages = s.num_pages := by
  unfold sc_bisect_prepare; dsimp only; split <;> simp

@[simp]
theorem sc_bisect_prepare_pos_x (s : ZState) (t : ℕ) :
    (sc_bisect_prepare s t).pos_x = s.pos_x := by
  unfold sc_bisect_prepare; dsimp only; split <;> simp

@[simp]
theorem sc_bisect_prepare_pos_y (s : ZState) (t : ℕ) :
    (sc_bisect_prepare s t).pos_y = s.pos_y := by
  unfold sc_bisect_prepare; dsimp only; split <;> simp

@[simp]
theorem sc_bisect_prepare_max_size (s : ZState) (t : ℕ) :
    (sc_bisect_prepare s t).jl.max_size = s.jl.max_size := by
  unfold sc_bisect_prepare; dsimp only; split <;> simp

theorem i32ofNat_small (x : ℕ) (h : x < 2147483648) : i32ofNat x = (x : ℤ) := by
  unfold i32ofNat
  rw [Nat.mod_eq_of_lt (by omega)]
  rw [if_pos h]

theorem u32ofInt_ofNat (x : ℕ) (h : x < 4294967296) : u32ofInt (x : ℤ) = x := by
  unfold u32ofInt; omega

theorem sc_search_inner_finds (pages : List (ℤ × ℤ)) (n cur diff page_id : ℤ) :
    ∀ (fuel : ℕ) (start doc : ℤ),
      (∃ j : ℤ, start ≤ j ∧ j < start + (fuel : ℤ) ∧
        (get_page_search pages ((cur + diff * (page_id + j) + 2 * n).tmod n)).2 ≠ 0) →
      (sc_search_inner pages n cur diff page_id fuel start doc).2.isSome = true := by
  intro fuel
  induction fuel with
  | zero =>
    rintro start doc ⟨j, h1, h2, -⟩
    exfalso
    simp only [Nat.cast_zero] at h2
    omega
  | succ f ih =>
    rintro start doc ⟨j, h1, h2, h3⟩
    rw [sc_search_inner]
    by_cases hl :
        (get_page_search pages ((cur + diff * (page_id + start) + 2 * n).tmod n)).2 ≠ 0
    · rw [if_pos hl]
      rfl
    · rw [if_neg hl]
      apply ih
      refine ⟨j, ?_, ?_, h3⟩
      · rcases eq_or_lt_of_le h1 with h | h
        · exact absurd (h ▸ h3) hl
        · omega
      · push_cast at h2 ⊢
        omega

/-! ## Claim theorems -/

/-- C1: for every scroll direction the base delta of the scroll engine
matches the formulas of the spec: step directions move by stepSize times
stepCount (the horizontal step size falling back to the vertical one when
the horizontal setting is negative), full directions move by
(1 - overlapFraction) * viewportExtent + padding, half directions move by
(viewportExtent + padding)/2, Top yields 0 and Bottom yields
max = upperBound - viewportExtent; in particular, with viewportExtent 500,
upperBound 1010, overlap 0, padding 1 and current value 0, a FullDown move
yields 501. -/
theorem sc_scroll_base_deltas (p : ScrollParams) (t : ℕ)
    (hw : p.scroll_wrap = false) (hpa : p.scroll_page_aware = false)
    (ht : 0 < t) :
    sc_scroll .up t p = p.value - p.scroll_step * t ∧
    sc_scroll .down t p = p.value + p.scroll_step * t ∧
    sc_scroll .left t p
      = p.value - (if p.scroll_hstep < 0 then p.scroll_step else p.scroll_hstep) * t ∧
    sc_scroll .right t p
      = p.value + (if p.scroll_hstep < 0 then p.scroll_step else p.scroll_hstep) * t ∧
    sc_scroll .full_up t p
      = p.value - (1 - p.scroll_full_overlap) * p.view_size - p.padding ∧
    sc_scroll .full_down t p
      = p.value + (1 - p.scroll_full_overlap) * p.view_size + p.padding ∧
    sc_scroll .full_left t p
      = p.value - (1 - p.scroll_full_overlap) * p.view_size - p.padding ∧
    sc_scroll .full_right t p
      = p.value + (1 - p.scroll_full_overlap) * p.view_size + p.padding ∧
    sc_scroll .half_up t p = p.value - (p.view_size + p.padding) / 2 ∧
    sc_scroll .half_down t p = p.value + (p.view_size + p.padding) / 2 ∧
    sc_scroll .half_left t p = p.value - (p.view_size + p.padding) / 2 ∧
    sc_scroll .half_right t p = p.value + (p.view_size + p.padding) / 2 ∧
    sc_scroll .top t p = 0 ∧
    sc_scroll .bottom t p = p.upper - p.view_size ∧
    sc_scroll .full_down 1 scrollExample = 501 := by
  have hne : t ≠ 0 := Nat.pos_iff_ne_zero.mp ht
  refine ⟨?_, ?_, ?_, ?_, ?_, ?_, ?_, ?_, ?_, ?_, ?_, ?_, ?_, ?_, ?_⟩ <;>
    norm_num [sc_scroll, sc_scroll_base, sc_scroll_wrap, hw, hpa, hne,
      scrollExample]

/-- C1 witness: the theorem applied to the concrete end-to-end example. -/
theorem sc_scroll_base_deltas_witness :
    sc_scroll .full_down 1 scrollExample = 501 ∧
    sc_scroll .top 1 scrollExample = 0 := by
  obtain ⟨-, -, -, -, -, -, -, -, -, -, -, -, h13, -, h15⟩ :=
    sc_scroll_base_deltas scrollExample 1 rfl rfl Nat.one_pos
  exact ⟨h15, h13⟩

/-- C2 counterexample: with wrap and page-aware snapping both enabled and
max = 500 nonnegative, a FullUp move from value 0 yields -500, outside
[0, max]: snapping, applied after wrap handling, overrides the wrapped
value. -/
theorem sc_scroll_page_aware_escape :
    scrollEscape.scroll_wrap = true ∧ scrollEscape.scroll_page_aware = true ∧
    scrollEscape.upper - scrollEscape.view_size = 500 ∧
    sc_scroll .full_up 1 scrollEscape = -500 ∧
    sc_scroll .full_up 1 scrollEscape < 0 := by
  have h : sc_scroll .full_up 1 scrollEscape = -500 := by
    norm_num [sc_scroll, sc_scroll_base, sc_scroll_wrap, sc_scroll_page_aware,
      scroll_fwd_set, scroll_bwd_set, dtoi, scrollEscape]
    decide
  refine ⟨rfl, rfl, by norm_num [scrollEscape], h, by rw [h]; norm_num⟩

/-- C2 (amended): with wrap enabled a computed value falling outside
[0, max] wraps to the opposite bound (negative to max, above max to 0), and
when page-aware snapping is disabled the offset returned by the scroll
engine never lies outside [0, max]; with snapping also enabled the result
can leave [0, max] (see the counterexample), since snapping is applied
after, and overrides, wrap handling. -/
theorem sc_scroll_wrap_bounds (dir : ScrollDir) (t : ℕ) (p : ScrollParams)
    (v : ℚ) (hw : p.scroll_wrap = true) (hpa : p.scroll_page_aware = false)
    (hmx : 0 ≤ p.upper - p.view_size) :
    (0 ≤ sc_scroll dir t p ∧ sc_scroll dir t p ≤ p.upper - p.view_size) ∧
    (v < 0 →
      sc_scroll_wrap true (p.upper - p.view_size) v = p.upper - p.view_size) ∧
    (p.upper - p.view_size < v →
      sc_scroll_wrap true (p.upper - p.view_size) v = 0) := by
  refine ⟨?_, ?_, ?_⟩
  · unfold sc_scroll
    rw [hpa, hw]
    simp only [Bool.false_eq_true, if_false]
    unfold sc_scroll_wrap
    rw [if_pos rfl]
    split_ifs <;> exact ⟨by linarith, by linarith⟩
  · intro hv
    simp [sc_scroll_wrap, hv]
  · intro hv
    have hv0 : ¬ v < 0 := by linarith
    simp [sc_scroll_wrap, hv0, hv]

/-- C2 witness: the amended theorem applied at a concrete configuration
with wrap enabled and snapping disabled. -/
theorem sc_scroll_wrap_bounds_witness :
    (0 ≤ sc_scroll .down 1 scrollWrapOnly ∧
      sc_scroll .down 1 scrollWrapOnly ≤
        scrollWrapOnly.upper - scrollWrapOnly.view_size) ∧
    sc_scroll_wrap true (scrollWrapOnly.upper - scrollWrapOnly.view_size) (-5)
      = scrollWrapOnly.upper - scrollWrapOnly.view_size ∧
    sc_scroll_wrap true (scrollWrapOnly.upper - scrollWrapOnly.view_size) 501
      = 0 := by
  have h1 := sc_scroll_wrap_bounds .down 1 scrollWrapOnly (-5) rfl rfl
    (by norm_num [scrollWrapOnly])
  have h2 := sc_scroll_wrap_bounds .down 1 scrollWrapOnly 501 rfl rfl
    (by norm_num [scrollWrapOnly])
  exact ⟨h1.1, h1.2.1 (by norm_num),
    h2.2.2 (by norm_num [scrollWrapOnly])⟩

/-- C3 counterexample: with 3 pages, current page 0 and explicit target
page t = 2 (which does not precede the current page), the code chooses
BACKWARD while the claim rule (Backward when t precedes the current page)
chooses Forward. -/
theorem sc_bisect_direction_not_spec :
    sc_bisect_direction 0 2 3 .forward = .backward ∧
    spec_bisect_direction 0 2 = .forward ∧
    sc_bisect_direction 0 2 3 .forward ≠ spec_bisect_direction 0 2 := by
  decide

/-- C3 (amended): with an explicit target page t, 0 < t <= numberOfPages,
the bisection first jumps to page t-1 and records it via add (it becomes the
current jump entry), and the direction is Backward exactly when t-1 comes
after (exceeds) the original current page, else Forward. -/
theorem sc_bisect_explicit_jump (s : ZState) (t : ℕ) (arg : BisectDir)
    (ht : 0 < t) (htn : t ≤ s.num_pages) (hcap : 0 < s.jl.max_size) :
    (sc_bisect_prepare s t).cur_page = t - 1 ∧
    (sc_bisect_prepare s t).jl.current = some ⟨t - 1, s.pos_x, s.pos_y⟩ ∧
    (sc_bisect_direction s.cur_page t s.num_pages arg = .backward ↔
      s.cur_page < t - 1) := by
  have hlt : t - 1 < s.num_pages := by omega
  refine ⟨?_, ?_, ?_⟩
  · unfold sc_bisect_prepare
    rw [if_pos ⟨ht, htn⟩]
    dsimp only
    simp [page_set, hlt]
  · unfold sc_bisect_prepare
    rw [if_pos ⟨ht, htn⟩]
    dsimp only
    rw [zentry_page_set { s with jl := s.jl.save (zentry s) } (t - 1) hlt]
    exact Jumplist.add_current _ _ (by simpa using hcap)
  · unfold sc_bisect_direction
    rw [if_pos ⟨ht, htn⟩]
    split_ifs with h <;> simp [h]

/-- C3 witness: the amended theorem at a concrete 10-page state with
target page 2. -/
theorem sc_bisect_explicit_jump_witness :
    (sc_bisect_prepare bisectExample 2).cur_page = 1 ∧
    (sc_bisect_prepare bisectExample 2).jl.current = some ⟨1, 0, 0⟩ ∧
    (sc_bisect_direction bisectExample.cur_page 2 bisectExample.num_pages
        .forward = .backward ↔ bisectExample.cur_page < 1) := by
  exact sc_bisect_explicit_jump bisectExample 2 .forward (by decide)
    (by decide) (by decide)

/-- C6 counterexample: a Uri link whose target value is the empty string is
constructed successfully, although the claim requires construction to fail
whenever no non-empty string value is supplied. -/
theorem zathura_link_new_empty_string_succeeds :
    (zathura_link_new .uri rect0 ⟨some emptyString⟩).isSome = true ∧
    emptyString.length = 0 := by
  exact ⟨rfl, rfl⟩

/-- C6 (amended): link construction fails exactly for unrecognized type
values, and for the types GotoRemote, Uri, Launch, Named exactly when the
supplied target carries no string value at all (a NULL value; an empty
string is accepted); it succeeds for None and GotoDestination even when the
value is absent. -/
theorem zathura_link_new_failure_iff (ty : LinkType) (pos : LinkRect)
    (tgt : LinkTarget) :
    zathura_link_new ty pos tgt = none ↔
      (ty = .invalid ∨
        ((ty = .goto_remote ∨ ty = .uri ∨ ty = .launch ∨ ty = .named) ∧
          tgt.value = none)) := by
  obtain ⟨v⟩ := tgt
  cases ty <;> cases v <;> simp [zathura_link_new]

/-- C7 counterexample: in the 3-page scenario with result counts [0, 2, 0]
and the first result (index 0) of page 1 active, an advance(Forward) from
page 0 lands on page 1 result index 1, not index 0 as the claim states. -/
theorem sc_search_first_active_advances_to_index_one :
    (sc_search .forward .forward searchScenarioFirst).2 = some (1, 1) ∧
    (sc_search .forward .forward searchScenarioFirst).2 ≠ some (1, 0) := by
  decide

/-- C7 (amended): the effective page-scan step is +1 for a Forward advance
and -1 for a Backward advance, negated when the stored search direction of
the session is Backward; the scan over pages is cyclic: on a 3-page document
with result counts [0, 2, 0] and the last result (index 1) of page 1 active,
advance(Forward) from page 0 lands on page 1 result index 0, a second
advance lands on page 1 result index 1, and a third wraps cyclically back to
page 1 result index 0. -/
theorem sc_search_advance_scenario :
    sc_search_diff .forward .forward = 1 ∧
    sc_search_diff .backward .forward = -1 ∧
    sc_search_diff .forward .backward = -1 ∧
    sc_search_diff .backward .backward = 1 ∧
    (sc_search .forward .forward searchScenario).2 = some (1, 0) ∧
    (sc_search .forward .forward
      (sc_search .forward .forward searchScenario).1).2 = some (1, 1) ∧
    (sc_search .forward .forward (sc_search .forward .forward
      (sc_search .forward .forward searchScenario).1).1).2 = some (1, 0) := by
  decide

/-- C9: after every zoom operation on a loaded document the resulting scale
lies within [zoom-min/100, zoom-max/100]: any result below the minimum is
clamped up to it and any result above the maximum is clamped down to it
(provided zoom-min <= zoom-max). -/
theorem sc_zoom_clamped (arg : ZoomArg) (t : ℕ) (old_zoom : ℚ)
    (zs zmin zmax : ℤ) (h : zmin ≤ zmax) :
    (zmin : ℚ) * (1 / 100) ≤ sc_zoom arg t old_zoom zs zmin zmax ∧
    sc_zoom arg t old_zoom zs zmin zmax ≤ (zmax : ℚ) * (1 / 100) := by
  have hq : (zmin : ℚ) * (1 / 100) ≤ (zmax : ℚ) * (1 / 100) := by
    have hc : (zmin : ℚ) ≤ (zmax : ℚ) := by exact_mod_cast h
    linarith
  unfold sc_zoom
  dsimp only
  split_ifs <;> exact ⟨by linarith, by linarith⟩

/-- C9 witness: the theorem at a zoom-in with defaults zoom-min 10,
zoom-max 1000. -/
theorem sc_zoom_clamped_witness :
    ((10 : ℤ) : ℚ) * (1 / 100) ≤ sc_zoom .zoom_in 0 1 10 10 1000 ∧
    sc_zoom .zoom_in 0 1 10 10 1000 ≤ ((1000 : ℤ) : ℚ) * (1 / 100) := by
  exact sc_zoom_clamped .zoom_in 0 1 10 10 1000 (by decide)

/-- C10: the inner cross-page scan loop of the search advance always exits
although its loop guard is invariant: when the page from which the scan
departed (the page_id-th scanned page) has a nonzero result count, the
cyclic scan revisits it within numberOfPages steps, so fuel numberOfPages
suffices and the loop returns a target. -/
theorem sc_search_inner_loop_terminates (pages : List (ℤ × ℤ))
    (n cur diff page_id doc : ℤ) (hn : 0 < n) (hcur : 0 ≤ cur)
    (hpi : 0 ≤ page_id) (hpin : page_id < n) (hdiff : diff = 1 ∨ diff = -1)
    (hlen : (get_page_search pages ((cur + diff * page_id + n).tmod n)).2 ≠ 0) :
    (sc_search_inner pages n cur diff page_id n.toNat 1 doc).2.isSome
      = true := by
  apply sc_search_inner_finds
  refine ⟨n, by omega, by omega, ?_⟩
  have key : (cur + diff * (page_id + n) + 2 * n).tmod n
      = (cur + diff * page_id + n).tmod n := by
    rcases hdiff with h | h <;> subst h
    · have e1 : cur + 1 * (page_id + n) + 2 * n
          = (cur + 1 * page_id + n) + n * 2 := by ring
      rw [e1, Int.tmod_eq_emod (by omega) (by omega),
        Int.tmod_eq_emod (by omega) (by omega)]
      exact Int.add_mul_emod_self_left (cur + 1 * page_id + n) n 2
    · have e1 : cur + -1 * (page_id + n) + 2 * n
          = cur + -1 * page_id + n := by ring
      rw [e1]
  rw [key]
  exact hlen

/-- C10 witness: the theorem at the concrete 3-page search state, scanning
forward from outer position page_id = 1. -/
theorem sc_search_inner_loop_terminates_witness :
    (sc_search_inner [(-1, 0), (1, 2), (-1, 0)] 3 0 1 1 3 1 0).2.isSome
      = true := by
  exact sc_search_inner_loop_terminates [(-1, 0), (1, 2), (-1, 0)] 3 0 1 1 0
    (by decide) (by decide) (by decide) (by decide) (Or.inl rfl) (by decide)

theorem sc_bisect_switch_no_anchor (s3 : ZState) (dir : BisectDir)
    (cur n : ℕ) (pk : BisectPeek) (hcap : 0 < s3.jl.max_size)
    (hnum : s3.num_pages = n) (hcn : cur < n) :
    (dir = .forward → ¬(pk.have_prev = true ∧ cur ≤ pk.prev_page) →
      ¬(pk.have_prev2 = true ∧ cur ≤ pk.prev2_page) →
      (sc_bisect_switch s3 dir cur n pk).cur_page = (cur + n - 1) / 2 ∧
      (sc_bisect_switch s3 dir cur n pk).jl.current
        = some ⟨(cur + n - 1) / 2, s3.pos_x, s3.pos_y⟩) ∧
    (dir = .backward → ¬(pk.have_prev = true ∧ pk.prev_page ≤ cur) →
      ¬(pk.have_prev2 = true ∧ pk.prev2_page ≤ cur) →
      (sc_bisect_switch s3 dir cur n pk).cur_page = cur / 2 ∧
      (sc_bisect_switch s3 dir cur n pk).jl.current
        = some ⟨cur / 2, s3.pos_x, s3.pos_y⟩) := by
  constructor
  · intro hd hna1 hna2
    subst hd
    unfold sc_bisect_switch
    rw [if_neg hna1, if_neg hna2]
    dsimp only
    have hm : (cur + n - 1) / 2 < s3.num_pages := by omega
    refine ⟨page_set_cur_page s3 _ hm, ?_⟩
    rw [zentry_page_set s3 _ hm, page_set_jl]
    exact Jumplist.add_current _ _ hcap
  · intro hd hna1 hna2
    subst hd
    unfold sc_bisect_switch
    rw [if_neg hna1, if_neg hna2]
    dsimp only
    have hm : cur / 2 < s3.num_pages := by omega
    refine ⟨page_set_cur_page s3 _ hm, ?_⟩
    rw [zentry_page_set s3 _ hm, page_set_jl]
    exact Jumplist.add_current _ _ hcap

/-- C4: when neither the previous nor the second-previous jump entry
provides an applicable anchor, the bisection jumps to the fallback midpoint
(curPage + numPages - 1)/2 (integer division) for the Forward direction and
curPage/2 for the Backward direction, in both cases recording the new
position via add (it becomes the current jump entry). -/
theorem sc_bisect_fallback_midpoints (s : ZState) (arg : BisectDir) (t : ℕ)
    (hcap : 0 < s.jl.max_size)
    (hcur : (sc_bisect_prepare s t).cur_page < s.num_pages) :
    (sc_bisect_direction s.cur_page t s.num_pages arg = .forward →
      ¬((jumplist_peek (sc_bisect_prepare s t).jl).have_prev = true ∧
        (sc_bisect_prepare s t).cur_page ≤
          (jumplist_peek (sc_bisect_prepare s t).jl).prev_page) →
      ¬((jumplist_peek (sc_bisect_prepare s t).jl).have_prev2 = true ∧
        (sc_bisect_prepare s t).cur_page ≤
          (jumplist_peek (sc_bisect_prepare s t).jl).prev2_page) →
      (sc_bisect s arg t).cur_page
        = ((sc_bisect_prepare s t).cur_page + s.num_pages - 1) / 2 ∧
      (sc_bisect s arg t).jl.current
        = some ⟨((sc_bisect_prepare s t).cur_page + s.num_pages - 1) / 2,
            s.pos_x, s.pos_y⟩) ∧
    (sc_bisect_direction s.cur_page t s.num_pages arg = .backward →
      ¬((jumplist_peek (sc_bisect_prepare s t).jl).have_prev = true ∧
        (jumplist_peek (sc_bisect_prepare s t).jl).prev_page ≤
          (sc_bisect_prepare s t).cur_page) →
      ¬((jumplist_peek (sc_bisect_prepare s t).jl).have_prev2 = true ∧
        (jumplist_peek (sc_bisect_prepare s t).jl).prev2_page ≤
          (sc_bisect_prepare s t).cur_page) →
      (sc_bisect s arg t).cur_page = (sc_bisect_prepare s t).cur_page / 2 ∧
      (sc_bisect s arg t).jl.current
        = some ⟨(sc_bisect_prepare s t).cur_page / 2, s.pos_x, s.pos_y⟩) := by
  have hb : sc_bisect s arg t
      = sc_bisect_switch
          { sc_bisect_prepare s t with
              jl := (jumplist_peek (sc_bisect_prepare s t).jl).jl }
          (sc_bisect_direction s.cur_page t s.num_pages arg)
          (sc_bisect_prepare s t).cur_page s.num_pages
          (jumplist_peek (sc_bisect_prepare s t).jl) := rfl
  have hcap3 : 0 < ({ sc_bisect_prepare s t with
      jl := (jumplist_peek (sc_bisect_prepare s t).jl).jl } : ZState).jl.max_size := by
    simpa using hcap
  have hnum3 : ({ sc_bisect_prepare s t with
      jl := (jumplist_peek (sc_bisect_prepare s t).jl).jl } : ZState).num_pages
      = s.num_pages := by
    simp
  have h := sc_bisect_switch_no_anchor
    { sc_bisect_prepare s t with
        jl := (jumplist_peek (sc_bisect_prepare s t).jl).jl }
    (sc_bisect_direction s.cur_page t s.num_pages arg)
    (sc_bisect_prepare s t).cur_page s.num_pages
    (jumplist_peek (sc_bisect_prepare s t).jl) hcap3 hnum3 hcur
  constructor
  · intro hdir hna1 hna2
    have h2 := h.1 hdir hna1 hna2
    rw [hb]
    refine ⟨h2.1, ?_⟩
    rw [h2.2]
    simp
  · intro hdir hna1 hna2
    have h2 := h.2 hdir hna1 hna2
    rw [hb]
    refine ⟨h2.1, ?_⟩
    rw [h2.2]
    simp

/-- C4 witness: the theorem at a 10-page state, current page 4, empty
jumplist (so no anchor exists), bisecting forward: midpoint (4+10-1)/2 = 6,
recorded as the current jump entry. -/
theorem sc_bisect_fallback_midpoints_witness :
    (sc_bisect bisectExample .forward 0).cur_page = 6 ∧
    (sc_bisect bisectExample .forward 0).jl.current = some ⟨6, 0, 0⟩ := by
  have h := (sc_bisect_fallback_midpoints bisectExample .forward 0
    (by decide) (by decide)).1 (by decide) (by decide) (by decide)
  exact h

/-- C5 counterexample: in BESTFIT mode with two 100x100 cells per row in a
1000x800 viewport, the cell aspect comparison of the claim
(cellHeight/cellWidth = 1, not below height/width = 4/5) predicts the
height-fitting scale 800/100 = 8, but the code compares against the
document width (100/200 < 4/5) and takes the width-fitting branch,
yielding scale 5. -/
theorem sc_adjust_bestfit_uses_document_width :
    sc_adjust_window .bestfit adjustExample = some 5 ∧
    ¬((adjustExample.cell_height : ℚ) / (adjustExample.cell_width : ℚ)
        < (adjustExample.height : ℚ) / (adjustExample.width : ℚ)) ∧
    sc_adjust_window .bestfit adjustExample
      ≠ some ((adjustExample.height : ℚ) / (adjustExample.cell_height : ℚ)) := by
  have h : sc_adjust_window .bestfit adjustExample = some 5 := by
    norm_num [sc_adjust_window, adjustExample, adjust_doc_size,
      adjust_correction, zathura_get_document_size, adjust_width_scale]
  refine ⟨h, by norm_num [adjustExample], ?_⟩
  rw [h]
  norm_num [adjustExample]

/-- C5 (amended): for the adjustment engine with a loaded document, in
WIDTH mode the computed scale equals
(viewportWidth - (pagesPerRow - 1) * padding) / (pagesPerRow *
unscaledCellWidth), with at most one non-iterative correction pass that
subtracts the scrollbar width and recomputes when the correction condition
holds (scrollbars shown, unscaled canvas taller than the viewport, and a
scrollbar width strictly between 0 and the viewport width); in BESTFIT mode
it behaves as WIDTH exactly when cellHeight/documentWidth <
viewportHeight/viewportWidth, where documentWidth is the unscaled canvas
width (pagesPerRow cells plus padding), and otherwise the scale equals
viewportHeight / unscaledCellHeight. -/
theorem sc_adjust_window_scales (p : AdjustParams) :
    (adjust_correction p = none →
      sc_adjust_window .fitwidth p
        = some (((p.width : ℚ) - (((p.pages_per_row - 1) * p.padding : ℕ) : ℚ))
            / ((p.pages_per_row * p.cell_width : ℕ) : ℚ))) ∧
    (∀ sbw : ℕ, adjust_correction p = some sbw →
      sc_adjust_window .fitwidth p
        = some ((((p.width - sbw : ℕ) : ℚ)
              - (((p.pages_per_row - 1) * p.padding : ℕ) : ℚ))
            / ((p.pages_per_row * p.cell_width : ℕ) : ℚ))) ∧
    (sc_adjust_window .bestfit p
      = if (p.cell_height : ℚ) / ((adjust_doc_size p).2 : ℚ)
            < (p.height : ℚ) / (p.width : ℚ)
        then sc_adjust_window .fitwidth p
        else some ((p.height : ℚ) / (p.cell_height : ℚ))) := by
  refine ⟨?_, ?_, ?_⟩
  · intro h
    unfold sc_adjust_window
    dsimp only
    rw [if_pos (Or.inl rfl), h]
    rfl
  · intro sbw h
    unfold sc_adjust_window
    dsimp only
    rw [if_pos (Or.inl rfl), h]
    rfl
  · by_cases hc : (p.cell_height : ℚ) / ((adjust_doc_size p).2 : ℚ)
        < (p.height : ℚ) / (p.width : ℚ)
    · rw [if_pos hc]
      unfold sc_adjust_window
      dsimp only
      rw [if_pos (Or.inr ⟨rfl, hc⟩), if_pos (Or.inl rfl)]
    · rw [if_neg hc]
      unfold sc_adjust_window
      dsimp only
      rw [if_neg ?hcond, if_pos rfl]
      case hcond =>
        rintro (h1 | ⟨-, h2⟩)
        · exact absurd h1 (by decide)
        · exact hc h2

/-- C5 witness: the amended theorem at the concrete two-column layout,
where no scrollbar correction applies. -/
theorem sc_adjust_window_scales_witness :
    sc_adjust_window .fitwidth adjustExample
      = some (((adjustExample.width : ℚ)
            - (((adjustExample.pages_per_row - 1) * adjustExample.padding : ℕ) : ℚ))
          / ((adjustExample.pages_per_row * adjustExample.cell_width : ℕ) : ℚ)) ∧
    sc_adjust_window .bestfit adjustExample
      = if (adjustExample.cell_height : ℚ) / ((adjust_doc_size adjustExample).2 : ℚ)
            < (adjustExample.height : ℚ) / (adjustExample.width : ℚ)
        then sc_adjust_window .fitwidth adjustExample
        else some ((adjustExample.height : ℚ) / (adjustExample.cell_height : ℚ)) := by
  exact ⟨(sc_adjust_window_scales adjustExample).1 (by decide),
    (sc_adjust_window_scales adjustExample).2.2⟩

/-- C8 counterexample: 7 pages, current page 0, previous direction, count
t = 8, wrap enabled: the C usual arithmetic conversions compute
(0 + 7 - 8) in 32-bit unsigned arithmetic, so the page becomes
(2^32 - 1) mod 7 = 3, not (0 - 8) mod 7 = 6 as the claim states. -/
theorem sc_navigate_previous_wrap_unsigned :
    sc_navigate .previous 8 0 7 1 true = 3 ∧
    ((0 - 8 : ℤ) % 7).toNat = 6 ∧ (3 : ℕ) ≠ 6 := by
  decide

/-- C8 (amended): for current page p < n, direction next/previous and count
1 <= t <= n (so that no 32-bit wraparound intervenes): with scroll-wrap
disabled, a requested page p + t (or p - t) outside [0, n) leaves the
current page unchanged, and an in-range request navigates to it; with
scroll-wrap enabled the new page is (p + t) mod n for next and
(p + n - t) mod n for previous.  For larger counts the mixed
int/unsigned-int arithmetic is performed mod 2^32 first (see the
counterexample). -/
theorem sc_navigate_bounds (t p n offset : ℕ) (hn : 0 < n)
    (hn31 : n ≤ 2147483647) (hp : p < n) (ht : 1 ≤ t) (htn : t ≤ n) :
    (n ≤ p + t → sc_navigate .next t p n offset false = p) ∧
    (p + t < n → sc_navigate .next t p n offset false = p + t) ∧
    (p < t → sc_navigate .previous t p n offset false = p) ∧
    (t ≤ p → sc_navigate .previous t p n offset false = p - t) ∧
    sc_navigate .next t p n offset true = (p + t) % n ∧
    sc_navigate .previous t p n offset true = (p + n - t) % n := by
  have hne : t ≠ 0 := by omega
  refine ⟨?_, ?_, ?_, ?_, ?_, ?_⟩
  · intro hge
    unfold sc_navigate i32ofNat u32ofInt page_set_nav
    dsimp only
    simp only [if_neg hne, Bool.false_eq_true, Bool.true_eq_false, if_false,
      if_true, and_false, eq_self_iff_true, and_true]
    split_ifs <;> omega
  · intro hlt
    unfold sc_navigate i32ofNat u32ofInt page_set_nav
    dsimp only
    simp only [if_neg hne, Bool.false_eq_true, Bool.true_eq_false, if_false,
      if_true, and_false, eq_self_iff_true, and_true]
    split_ifs <;> omega
  · intro hlt
    unfold sc_navigate i32ofNat u32ofInt page_set_nav
    dsimp only
    simp only [if_neg hne, Bool.false_eq_true, Bool.true_eq_false, if_false,
      if_true, and_false, eq_self_iff_true, and_true]
    split_ifs <;> omega
  · intro hle
    unfold sc_navigate i32ofNat u32ofInt page_set_nav
    dsimp only
    simp only [if_neg hne, Bool.false_eq_true, Bool.true_eq_false, if_false,
      if_true, and_false, eq_self_iff_true, and_true]
    split_ifs <;> omega
  · unfold sc_navigate
    dsimp only
    simp only [if_neg hne, Bool.false_eq_true, Bool.true_eq_false, if_false,
      if_true, and_false, eq_self_iff_true, and_true]
    have h2 : (p + t) % n < n := Nat.mod_lt _ hn
    rw [Nat.mod_eq_of_lt (show p + t < 4294967296 by omega)]
    rw [i32ofNat_small ((p + t) % n) (by omega)]
    rw [u32ofInt_ofNat ((p + t) % n) (by omega)]
    unfold page_set_nav
    rw [if_pos h2]
  · unfold sc_navigate
    dsimp only
    simp only [if_neg hne, Bool.false_eq_true, Bool.true_eq_false, if_false,
      if_true, and_false, eq_self_iff_true, and_true]
    have h0 : u32ofInt ((p : ℤ) + (n : ℤ) - (t : ℤ)) = p + n - t := by
      unfold u32ofInt
      omega
    rw [h0]
    have h2 : (p + n - t) % n < n := Nat.mod_lt _ hn
    rw [i32ofNat_small ((p + n - t) % n) (by omega)]
    rw [u32ofInt_ofNat ((p + n - t) % n) (by omega)]
    unfold page_set_nav
    rw [if_pos h2]

/-- C8 witness: the amended theorem at concrete inputs: an out-of-range
next request without wrap is rejected, and a previous request with wrap
lands on (1 + 7 - 3) mod 7 = 5. -/
theorem sc_navigate_bounds_witness :
    sc_navigate .next 2 5 7 1 false = 5 ∧
    sc_navigate .previous 3 1 7 1 true = 5 := by
  have h1 := sc_navigate_bounds 2 5 7 1 (by decide) (by decide) (by decide)
    (by decide) (by decide)
  have h2 := sc_navigate_bounds 3 1 7 1 (by decide) (by decide) (by decide)
    (by decide) (by decide)
  exact ⟨h1.1 (by decide), h2.2.2.2.2.2⟩
